import Mathlib

/-! Verification of the websimm repository (an MCP protocol-adapter exposing
WebSim REST lookups as tools).  The repository holds several evolutionary
variants of the same server:

* `src/server.js` (first document, plain JS): a `tools` array of descriptors,
  a `WebSimAPIClient` with `makeRequest` (AbortController timeout), and
  `CallToolRequestSchema` / `ListToolsRequestSchema` handlers.
* `src/server.js` (second document, TS `McpServer`): `websimApiRequest`,
  `formatDateTime` / `formatRelativeTime` / `formatNumber`, and tools such as
  `get_trending_sites` and `get_user_bookmarks`.
* `src/unnamed/part_001` (TS `McpServer`): a sibling variant with its own
  `websimApiRequest` and tools such as `list_trending_projects` and
  `search_projects`.

Each definition below is a shallow embedding of one of those source
functions; external library behaviour (fetch, URL, zod, toLocaleString) is
modelled at the call boundary and documented where it appears.
-/

/-- Substring containment: `needle` occurs contiguously inside `hay`.
Used to state properties of rendered markdown and error messages. -/
def strContains (hay needle : String) : Prop :=
  needle.data <:+: hay.data

instance (hay needle : String) : Decidable (strContains hay needle) := by
  unfold strContains
  infer_instance

/-- Right-nested concatenation of a list of string segments, mirroring the
JavaScript pattern of successive `markdown += segment` statements. -/
def concatStrs : List String → String
  | [] => ""
  | s :: rest => s ++ concatStrs rest

/-- Escape of one character as performed by `JSON.stringify` inside a JSON
string literal. -/
def jsonEscapeChar (c : Char) : String :=
  if c = '"' then "\\\""
  else if c = '\\' then "\\\\"
  else if c = '\n' then "\\n"
  else if c = '\r' then "\\r"
  else if c = '\t' then "\\t"
  else if c = (Char.ofNat 8) then "\\b"
  else if c = (Char.ofNat 12) then "\\f"
  else if c.toNat < 32 then
    "\\u00" ++ String.mk [Nat.digitChar (c.toNat / 16), Nat.digitChar (c.toNat % 16)]
  else String.mk [c]

/-- Character-wise JSON string escaping, as `JSON.stringify` applies to the
string values it embeds. -/
def jsonEscapeList : List Char → String
  | [] => ""
  | c :: cs => jsonEscapeChar c ++ jsonEscapeList cs

def jsonEscape (s : String) : String :=
  jsonEscapeList s.data

/-- JavaScript truthiness of a possibly-absent string (`undefined`, `null`
and `""` are falsy), used for guards such as `if (site.model)` in the source. -/
def jsTruthyS : Option String → Bool
  | none => false
  | some s => !s.isEmpty

/-- JavaScript truthiness of a possibly-absent boolean, used for guards such
as `if (feedData.pagination.hasMore)`. -/
def jsTruthyB : Option Bool → Bool
  | none => false
  | some b => b

/-- JavaScript `a || d` for a possibly-absent string `a` (as in
`site.title || "Untitled Site"`). -/
def jsOrElse (v : Option String) (d : String) : String :=
  match v with
  | none => d
  | some s => if s.isEmpty then d else s

/- ## Request Client, `src/server.js` first document (`WebSimAPIClient`) -/

/-- Configured request deadline, `const DEFAULT_TIMEOUT = 30000` in
`src/server.js`. -/
def DEFAULT_TIMEOUT : Nat := 30000

/-- Outcome of the underlying `fetch` call, had it been allowed to finish:
either an HTTP response (status, status text, and the result of parsing the
body as JSON, with the parse failure message) or a network-level failure. -/
inductive FetchResult (α : Type) where
  | success (status : Nat) (statusText : String) (body : Except String α)
  | netError (msg : String)

/-- Shallow embedding of `WebSimAPIClient.makeRequest` from `src/server.js`.
`delay` is the instant (ms) at which the `fetch` promise would settle; the
`AbortController` timer fires at `timeout`, so when `timeout ≤ delay` the
call is aborted and the `AbortError` branch of the `catch` produces the
timeout message.  Otherwise the source checks `response.ok`
(status 200-299), throws `HTTP {status}: {statusText}` for other statuses,
and returns the parsed JSON body; every thrown error is re-wrapped by the
`catch` as `API request failed: {message}`.  The first component counts the
`fetch` invocations made: the source performs exactly one, with no retry. -/
def makeRequestV1 {α : Type} (timeout delay : Nat) (res : FetchResult α) :
    Nat × Except String α :=
  (1,
    if timeout ≤ delay then
      Except.error ("Request timeout after " ++ toString timeout ++ "ms")
    else
      match res with
      | FetchResult.netError m => Except.error ("API request failed: " ++ m)
      | FetchResult.success st stx body =>
        if 200 ≤ st ∧ st ≤ 299 then
          match body with
          | Except.ok v => Except.ok v
          | Except.error e => Except.error ("API request failed: " ++ e)
        else
          Except.error ("API request failed: HTTP " ++ toString st ++ ": " ++ stx))

/- ## Request Client, TS variants (`websimApiRequest`) -/

/-- URL query construction of `websimApiRequest` (both TS variants):
`Object.entries(params)` is walked in order and
`url.searchParams.append(key, String(value))` is called for every entry
whose value is neither `undefined` nor `null`.  Parameter values are
modelled after the `String(value)` conversion; an absent value is `none`. -/
def appendQueryPairs : List (String × Option String) → List (String × String)
  | [] => []
  | (k, some v) :: rest => (k, v) :: appendQueryPairs rest
  | (_, none) :: rest => appendQueryPairs rest

/-- Rendering of the accumulated `URLSearchParams` by `url.toString()`: no
`?` when no pair was appended, otherwise `?` and `&`-separated `k=v` pairs
in append order (percent-encoding of keys and values is not modelled; the
pairs carry the raw strings). -/
def renderQuery (pairs : List (String × String)) : String :=
  match pairs with
  | [] => ""
  | _ => "?" ++ String.intercalate "&" (pairs.map (fun p => p.1 ++ "=" ++ p.2))

/-- Full URL built by `websimApiRequest`:
`new URL(WEBSIM_API_BASE + endpoint)` followed by the query appends. -/
def websimApiUrl (base endpoint : String) (params : List (String × Option String)) : String :=
  base ++ endpoint ++ renderQuery (appendQueryPairs params)

/-- Base address of the `src/unnamed/part_001` variant. -/
def WEBSIM_API_BASE_PART001 : String := "https://api.websim.com"

/-- Base address of the `src/server.js` second-document variant. -/
def WEBSIM_API_BASE_V2 : String := "https://websim.ai/api/v1"

/-- Boolean form of `strContains`, used to model JavaScript
`message.includes("fetch")`. -/
def strContainsB (hay needle : String) : Bool :=
  decide (strContains hay needle)

/-- Outer `catch` of both TS `websimApiRequest` variants: a message that
contains "fetch" becomes the connectivity message, any other `Error` is
rethrown unchanged. -/
def websimOuterCatch (msg : String) : String :=
  if strContainsB msg "fetch" then
    "Unable to connect to WebSim service. Please check your internet connection."
  else msg

/-- Status classification of the `src/unnamed/part_001` `websimApiRequest`
for a non-ok response: the specific throws stand directly inside
`if (!response.ok)`, so each reaches the caller. -/
def part001StatusError (status : Nat) (statusText : String) : String :=
  if status = 404 then "Resource not found"
  else if status = 429 then "Rate limit exceeded. Please try again later."
  else if 500 ≤ status then "WebSim service temporarily unavailable"
  else "WebSim API error: " ++ toString status ++ " " ++ statusText

/-- Error message the `part_001` client surfaces for a non-ok HTTP status,
after the outer `catch` re-examines it. -/
def part001RequestError (status : Nat) (statusText : String) : String :=
  websimOuterCatch (part001StatusError status statusText)

/-- Error body shape `ApiErrorResponse` of the `src/server.js` second
document: `errorData.error?.message`. -/
structure ApiErrBody where
  message : Option String

/-- The `try` block inside `if (!response.ok)` of the `src/server.js`
second-document `websimApiRequest` (lines 1273-1285): it first awaits
`response.json()` (modelled by `errorData`, `none` when the body is not
JSON, which rejects), then throws the status-specific error.  Every path
through the block throws, which the adjacent `catch` observes. -/
def serverV2TryBlock (status : Nat) (statusText : String)
    (errorData : Option ApiErrBody) : Except String Unit :=
  match errorData with
  | none => Except.error ("SyntaxError: unexpected token in JSON")
  | some d =>
    if status = 404 then Except.error "Resource not found"
    else if status = 429 then Except.error "Rate limit exceeded. Please try again later."
    else if 500 ≤ status then Except.error "WebSim service temporarily unavailable"
    else
      Except.error ("WebSim API error: " ++
        (match d.message with
         | some m => m
         | none => toString status ++ " " ++ statusText))

/-- Non-ok handling of the `src/server.js` second-document client: the bare
`catch` wrapped around the block above intercepts every error thrown inside
it — including the deliberate 404/429/5xx throws — and replaces it with the
generic `WebSim API error: {status} {statusText}`. -/
def serverV2StatusError (status : Nat) (statusText : String)
    (errorData : Option ApiErrBody) : String :=
  match serverV2TryBlock status statusText errorData with
  | Except.error _ => "WebSim API error: " ++ toString status ++ " " ++ statusText
  | Except.ok _ => ""

/-- Error message the `src/server.js` second-document client surfaces for a
non-ok HTTP status, after the outer `catch` re-examines it. -/
def serverV2RequestError (status : Nat) (statusText : String)
    (errorData : Option ApiErrBody) : String :=
  websimOuterCatch (serverV2StatusError status statusText errorData)

/- ## Formatting helpers of the TS variants -/

/-- Digit grouping on a reversed digit list: after every three characters a
comma is inserted.  Models `Number.prototype.toLocaleString("en-US")` for a
nonnegative integer, which is what `formatNumber` delegates to. -/
def groupThrees : List Char → List Char
  | a :: b :: c :: d :: rest => a :: b :: c :: ',' :: groupThrees (d :: rest)
  | l => l

/-- Shallow embedding of `formatNumber` (both TS variants):
`num.toLocaleString("en-US")`, i.e. the decimal digits grouped in threes
with comma separators. -/
def formatNumber (n : Nat) : String :=
  String.mk (groupThrees (toString n).data.reverse).reverse

/-- Shallow embedding of `formatRelativeTime` (both TS variants).
Timestamps are modelled as epoch milliseconds (`new Date(x).getTime()`);
`fmtDateTime` stands for the sibling `formatDateTime` helper, whose body is
a locale-dependent `toLocaleString` call and is therefore kept abstract.
`Int.fdiv` is `Math.floor` division, matching
`Math.floor(diffMs / (1000 * 60))` and friends. -/
def formatRelativeTime (fmtDateTime : Int → String) (timestamp now : Int) : String :=
  if Int.fdiv (now - timestamp) 60000 < 1 then "just now"
  else if Int.fdiv (now - timestamp) 60000 < 60 then
    toString (Int.fdiv (now - timestamp) 60000) ++ "m ago"
  else if Int.fdiv (now - timestamp) 3600000 < 24 then
    toString (Int.fdiv (now - timestamp) 3600000) ++ "h ago"
  else if Int.fdiv (now - timestamp) 86400000 < 7 then
    toString (Int.fdiv (now - timestamp) 86400000) ++ "d ago"
  else fmtDateTime timestamp

/- ## Dispatcher and tool registry, `src/server.js` first document -/

/-- Result envelope returned to the transport: the `content` array (one
text block per entry, modelled by its `text` field) and the `isError`
flag (absent in the success objects of the source, i.e. `false`). -/
structure Envelope where
  content : List String
  isError : Bool
deriving DecidableEq

/-- One entry of the `tools` array as the dispatcher sees it: a name and a
handler.  The handler yields the number of upstream requests it performed
together with either its result text or the message of the error it threw. -/
structure ToolImpl where
  name : String
  handler : List (String × String) → Nat × Except String String

/-- Body text produced by
`JSON.stringify({success: false, error, timestamp}, null, 2)` in the
`catch` branch of the `CallToolRequestSchema` handler. -/
def errorEnvelopeText (msg ts : String) : String :=
  "\x7b\n  \"success\": false,\n  \"error\": \"" ++ jsonEscape msg ++
    "\",\n  \"timestamp\": \"" ++ jsonEscape ts ++ "\"\n\x7d"

/-- Shallow embedding of the `CallToolRequestSchema` handler
(`src/server.js` lines 1143-1172): find the descriptor by exact name; when
absent, throw `Unknown tool: {name}`, which the surrounding `catch` turns
into an `isError` envelope; when present, run the handler and wrap either
its result or its thrown message.  `ts` is the `new Date().toISOString()`
taken at the moment of failure.  The second component is the number of
upstream requests performed during the invocation. -/
def dispatchToolCall (registry : List ToolImpl) (name : String)
    (args : List (String × String)) (ts : String) : Envelope × Nat :=
  match registry.find? (fun t => t.name == name) with
  | none =>
    ({ content := [errorEnvelopeText ("Unknown tool: " ++ name) ts], isError := true }, 0)
  | some t =>
    match t.handler args with
    | (n, Except.ok txt) => ({ content := [txt], isError := false }, n)
    | (n, Except.error msg) =>
      ({ content := [errorEnvelopeText msg ts], isError := true }, n)

/-- One registered descriptor of the static `tools` array, restricted to
the fields the `ListToolsRequestSchema` handler reads (`inputSchema` is
elided; it is forwarded verbatim just like `description`). -/
structure ToolReg where
  name : String
  description : String
deriving DecidableEq

/-- The static `tools` registry of `src/server.js` (first document,
lines 238-1117), in source order. -/
def websimTools : List ToolReg := [
  { name := "get_project_by_id", description := "Get a WebSim project by its ID" },
  { name := "get_project_by_slug", description := "Get a WebSim project by user and slug" },
  { name := "list_all_projects", description := "List all public WebSim projects with pagination" },
  { name := "list_user_projects", description := "List all projects for a specific user" },
  { name := "get_project_revisions", description := "Get all revisions of a WebSim project" },
  { name := "get_project_stats", description := "Get statistics for a WebSim project" },
  { name := "get_project_descendants", description := "Get projects that are descendants of a WebSim project" },
  { name := "get_user", description := "Get details for a specific WebSim user" },
  { name := "get_user_stats", description := "Get statistics for a specific WebSim user" },
  { name := "search_users", description := "Search for WebSim users" },
  { name := "get_user_following", description := "Get users that a specific user is following" },
  { name := "get_user_followers", description := "Get followers of a specific WebSim user" },
  { name := "get_trending_feed", description := "Get trending WebSim projects feed" },
  { name := "get_posts_feed", description := "Get latest posts from WebSim feed" },
  { name := "search_feed", description := "Search WebSim feed with sorting options" },
  { name := "get_trending_rooms", description := "Get trending WebSim rooms" },
  { name := "search_assets", description := "Search for WebSim assets" },
  { name := "bulk_asset_search", description := "Search for multiple asset queries in bulk" },
  { name := "search_relevant_assets", description := "Search for assets relevant to a query" },
  { name := "get_related_keywords", description := "Get keywords related to a search query" },
  { name := "get_top_searches", description := "Get top search queries on WebSim" },
  { name := "get_project_assets", description := "Get assets for a specific project version" },
  { name := "get_project_comments", description := "Get comments for a WebSim project" },
  { name := "get_comment_replies", description := "Get replies to a specific comment" },
  { name := "health_check", description := "Check if the WebSim API is accessible" }]

/-- Shallow embedding of the `ListToolsRequestSchema` handler
(`src/server.js` lines 1132-1140): `tools.map(tool => ({name: tool.name,
description: tool.description, inputSchema: tool.inputSchema}))`. -/
def listTools (registry : List ToolReg) : List ToolReg :=
  registry.map (fun t => { name := t.name, description := t.description })

/- ## health_check handler, `src/server.js` first document -/

/-- Body text of the healthy branch of `health_check`
(`JSON.stringify({success: true, status: "healthy", ...}, null, 2)`). -/
def renderHealthyText (ts : String) : String :=
  "\x7b\n  \"success\": true,\n  \"status\": \"healthy\",\n  \"message\": \"WebSim API is accessible\",\n  \"timestamp\": \"" ++
    jsonEscape ts ++ "\"\n\x7d"

/-- Body text of the unhealthy branch of `health_check`. -/
def renderUnhealthyText (msg ts : String) : String :=
  "\x7b\n  \"success\": false,\n  \"status\": \"unhealthy\",\n  \"message\": \"" ++
    jsonEscape ("WebSim API is not accessible: " ++ msg) ++
    "\",\n  \"timestamp\": \"" ++ jsonEscape ts ++ "\"\n\x7d"

/-- Shallow embedding of the `health_check` handler (`src/server.js`
lines 1079-1115): the connectivity probe
(`apiClient.makeRequest("/api/v1/projects", ...)`, whose result value is
discarded) runs inside the try block of the handler itself; a failure is caught there
and answered with an ordinary envelope (no `isError` field, hence `false`)
whose single text block reports status "unhealthy" and the error message. -/
def healthCheckHandler {α : Type} (probe : Except String α) (ts : String) : Envelope :=
  match probe with
  | Except.ok _ => { content := [renderHealthyText ts], isError := false }
  | Except.error msg => { content := [renderUnhealthyText msg ts], isError := false }

/- ## Argument validation of the `McpServer` tools (zod schemas) -/

/-- Invocation outcome as observed through the MCP envelope: argument
validation failed before the handler ran, the handler succeeded, or the
handler threw. -/
inductive CallResult where
  | validationError (msg : String)
  | success (text : String)
  | failure (msg : String)
deriving DecidableEq

def CallResult.isValidationErr : CallResult → Bool
  | CallResult.validationError _ => true
  | _ => false

/-- Generic `server.tool` invocation pipeline of the TS variants: the
declared zod schema is checked against the raw arguments first, and only
when it accepts does the handler body run.  The first component counts
upstream requests: zero on a validation failure, whatever the handler did
otherwise. -/
def mcpToolCall {α β : Type} (parse : α → Except String β)
    (handler : β → Nat × Except String String) (args : α) : Nat × CallResult :=
  match parse args with
  | Except.error m => (0, CallResult.validationError m)
  | Except.ok b =>
    match handler b with
    | (n, Except.ok t) => (n, CallResult.success t)
    | (n, Except.error m) => (n, CallResult.failure m)

/-- Raw arguments of `get_trending_sites` (`src/server.js` second document,
lines 1364-1368); `none` marks an argument the caller omitted. -/
structure TrendingSitesArgs where
  range : Option String
  classFilter : Option String
  limit : Option Int
deriving DecidableEq

/-- Declared enum of the `range` parameter of `get_trending_sites`. -/
def trendingRangeEnum : List String := ["day", "week", "month", "all"]

/-- Declared zod schema of `get_trending_sites`:
`range: z.enum(["day","week","month","all"]).default("day")`,
`class: z.string().optional()`,
`limit: z.number().min(1).max(100).default(20)`. -/
def parseTrendingSitesArgs (a : TrendingSitesArgs) :
    Except String (String × Option String × Int) := do
  let range ←
    match a.range with
    | none => pure "day"
    | some r =>
      if trendingRangeEnum.contains r then pure r
      else Except.error "range: invalid enum value"
  let limit ←
    match a.limit with
    | none => pure 20
    | some n =>
      if n < 1 then Except.error "limit: number must be greater than or equal to 1"
      else if 100 < n then Except.error "limit: number must be less than or equal to 100"
      else pure n
  pure (range, a.classFilter, limit)

/-- Raw arguments of `search_projects` (`src/unnamed/part_001`
lines 560-567). -/
structure SearchProjectsArgs where
  query : String
  sort : Option String
  limit : Option Int
  offset : Option Int
deriving DecidableEq

/-- Declared enum of the `sort` parameter of `search_projects`. -/
def searchSortEnum : List String := ["relevance", "date", "views", "likes", "trending"]

/-- Declared zod schema of `search_projects`: `query: z.string()`,
`sort: z.enum([...]).default("relevance")`,
`limit: z.number().min(1).max(100).default(20)`,
`offset: z.number().min(0).default(0)`. -/
def parseSearchProjectsArgs (a : SearchProjectsArgs) :
    Except String (String × String × Int × Int) := do
  let sort ←
    match a.sort with
    | none => pure "relevance"
    | some s =>
      if searchSortEnum.contains s then pure s
      else Except.error "sort: invalid enum value"
  let limit ←
    match a.limit with
    | none => pure 20
    | some n =>
      if n < 1 then Except.error "limit: number must be greater than or equal to 1"
      else if 100 < n then Except.error "limit: number must be less than or equal to 100"
      else pure n
  let offset ←
    match a.offset with
    | none => pure 0
    | some n =>
      if n < 0 then Except.error "offset: number must be greater than or equal to 0"
      else pure n
  pure (a.query, sort, limit, offset)

/- ## list_trending_projects handler, `src/unnamed/part_001` -/

/-- Index-carrying traversal, mirroring `array.forEach((item, index) => ...)`. -/
def enumFromIdx {α : Type} (i : Nat) : List α → List (Nat × α)
  | [] => []
  | a :: as => (i, a) :: enumFromIdx (i + 1) as

/-- Owner object of a `WebSimProject` (`src/unnamed/part_001`). -/
structure POwner where
  username : String
  displayName : Option String
deriving DecidableEq

/-- The fields of a `WebSimProject` that the `part_001` renderers read. -/
structure PProject where
  id : String
  slug : String
  title : String
  description : Option String
  owner : POwner
  viewsCount : Nat
  likesCount : Nat
  forksCount : Nat
  createdAt : String
  tags : List String
  isFeatured : Option Bool
deriving DecidableEq

/-- One entry of `WebSimFeed.items`; the renderer only reads the optional
`project` field (entries of other types are skipped by `if (item.project)`). -/
structure PFeedItem where
  project : Option PProject
deriving DecidableEq

/-- `WebSimFeed.pagination`; `hasMore` is `none` when the upstream omitted
the flag (JavaScript `undefined`, falsy). -/
structure PPagination where
  hasMore : Option Bool
deriving DecidableEq

/-- The `WebSimFeed` shape consumed by `list_trending_projects` and
`search_projects`. -/
structure PFeed where
  items : List PFeedItem
  pagination : PPagination
deriving DecidableEq

/-- JavaScript `feed.charAt(0).toUpperCase() + feed.slice(1)`. -/
def jsCapitalize (s : String) : String :=
  match s.data with
  | [] => s
  | c :: cs => String.mk (c.toUpper :: cs)

/-- One `markdown +=` block of the `list_trending_projects` `forEach` body
(`src/unnamed/part_001` lines 360-386), for an item whose `project` field
is present.  `fmtR` stands for `formatRelativeTime` applied to the raw
timestamp string. -/
def projectBlock (fmtR : String → String) (index : Nat) (p : PProject) : String :=
  concatStrs [
    "## " ++ toString (index + 1) ++ ". " ++ p.title ++ "\n\n",
    "**Owner:** [" ++ jsOrElse p.owner.displayName p.owner.username ++
      "](https://websim.com/@" ++ p.owner.username ++ ")\n",
    "**Project ID:** " ++ p.id ++ "\n",
    "**Slug:** " ++ p.slug ++ "\n",
    (if jsTruthyS p.description then "**Description:** " ++ p.description.getD "" ++ "\n" else ""),
    "**Views:** " ++ formatNumber p.viewsCount ++ " | **Likes:** " ++
      formatNumber p.likesCount ++ " | **Forks:** " ++ formatNumber p.forksCount ++ "\n",
    "**Created:** " ++ fmtR p.createdAt ++ "\n",
    (if p.tags.length > 0 then
      "**Tags:** " ++
        String.intercalate " " ((p.tags.take 5).map (fun tag => "`" ++ tag ++ "`")) ++
        (if p.tags.length > 5 then "..." else "") ++ "\n"
     else ""),
    (if jsTruthyB p.isFeatured then "**Featured:** ⭐\n" else ""),
    "**URL:** https://websim.com/@" ++ p.owner.username ++ "/" ++ p.slug ++ "\n\n",
    "---\n\n"]

/-- The markdown accumulated by `list_trending_projects` before the
pagination check (`src/unnamed/part_001` lines 353-386): header, count
line, and one block per feed item that carries a project. -/
def listTrendingCore (fmtR : String → String) (range feed : String)
    (resp : PFeed) : String :=
  concatStrs [
    "# " ++ jsCapitalize feed ++ " Projects\n\n",
    "Showing " ++ toString resp.items.length ++ " projects (range: " ++ range ++ ")\n\n",
    concatStrs ((enumFromIdx 0 resp.items).map (fun pr =>
      match pr.2.project with
      | some p => projectBlock fmtR pr.1 p
      | none => ""))]

/-- Full rendering of `list_trending_projects`
(`src/unnamed/part_001` lines 353-391): after the loop,
`if (feedData.pagination.hasMore)` appends the next-page hint built from
the consumed `offset + limit`. -/
def listTrendingProjectsRender (fmtR : String → String) (limit offset : Int)
    (range feed : String) (resp : PFeed) : String :=
  listTrendingCore fmtR range feed resp ++
    (if jsTruthyB resp.pagination.hasMore then
      "*More projects available. Use offset " ++ toString (offset + limit) ++ " to see more.*"
     else "")

/-- Run of a handler body: the URLs of the upstream requests it issued, in
order, and the text it returned. -/
structure HandlerRun where
  requests : List String
  output : String

/-- The `list_trending_projects` handler body: a single `websimApiRequest`
to `/api/v1/feed/trending` with `params = { limit, offset, range, feed }`
(numbers pass through `String(value)`), followed by the rendering of its
result. -/
def listTrendingProjectsHandler (fmtR : String → String) (limit offset : Int)
    (range feed : String) (resp : PFeed) : HandlerRun :=
  { requests := [websimApiUrl WEBSIM_API_BASE_PART001 "/api/v1/feed/trending"
      [("limit", some (toString limit)), ("offset", some (toString offset)),
       ("range", some range), ("feed", some feed)]],
    output := listTrendingProjectsRender fmtR limit offset range feed resp }

/- ## get_trending_sites handler, `src/server.js` second document -/

/-- The fields of a `WebSimSite` that the second-document renderers read;
`owner_username` stands for `site.owner?.username`. -/
structure SiteV2 where
  id : String
  title : Option String
  owner_username : Option String
  model : Option String
  state : String
  created_at : String
  link_url : Option String
deriving DecidableEq

/-- One `WebSimTrendingItem` of the `/feed/trending` response. -/
structure TrendingItemV2 where
  site : SiteV2
  views : Nat
  likes : Nat
  remixes : Nat
  comments : Nat
deriving DecidableEq

/-- `WebSimFeedResponse.meta`. -/
structure FeedMetaV2 where
  offset : Int
  limit : Int
deriving DecidableEq

/-- `WebSimFeedResponse` as consumed by `get_trending_sites`. -/
structure FeedResponseV2 where
  data : List TrendingItemV2
  meta : FeedMetaV2
deriving DecidableEq

/-- One `forEach` block of `get_trending_sites` (`src/server.js`
lines 1377-1404).  `fmtD` and `fmtR` stand for `formatDateTime` and
`formatRelativeTime` applied to the raw timestamp string. -/
def siteBlockV2 (fmtD fmtR : String → String) (index : Nat) (it : TrendingItemV2) : String :=
  concatStrs [
    "## " ++ toString (index + 1) ++ ". " ++ jsOrElse it.site.title "Untitled Site" ++ "\n\n",
    "**Site ID:** " ++ it.site.id ++ "\n",
    (if jsTruthyS it.site.owner_username then
      "**Owner:** [" ++ it.site.owner_username.getD "" ++ "](https://websim.ai/@" ++
        it.site.owner_username.getD "" ++ ")\n"
     else ""),
    (if jsTruthyS it.site.model then "**Model:** " ++ it.site.model.getD "" ++ "\n" else ""),
    "**State:** " ++ it.site.state ++ "\n",
    "**Views:** " ++ formatNumber it.views ++ "\n",
    "**Likes:** " ++ formatNumber it.likes ++ "\n",
    "**Remixes:** " ++ formatNumber it.remixes ++ "\n",
    "**Comments:** " ++ formatNumber it.comments ++ "\n",
    "**Created:** " ++ fmtD it.site.created_at ++ " (" ++ fmtR it.site.created_at ++ ")\n",
    (if jsTruthyS it.site.link_url then
      "**Link URL:** " ++ it.site.link_url.getD "" ++ "\n"
     else ""),
    "**Live Site:** https://websim.ai/c/" ++ it.site.id ++ "\n\n",
    "---\n\n"]

/-- Full rendering of `get_trending_sites` (`src/server.js`
lines 1371-1407): header, count line, one block per item, and the
pagination footer echoing `data.meta`. -/
def getTrendingSitesRender (fmtD fmtR : String → String) (range : String)
    (resp : FeedResponseV2) : String :=
  concatStrs [
    "# Trending Sites (" ++ range ++ ")\n\n",
    "Showing " ++ toString resp.data.length ++ " trending sites\n\n",
    concatStrs ((enumFromIdx 0 resp.data).map (fun pr => siteBlockV2 fmtD fmtR pr.1 pr.2)),
    "**Pagination:** Offset " ++ toString resp.meta.offset ++ ", Limit " ++
      toString resp.meta.limit ++ "\n"]

/-- Query parameters sent by `get_trending_sites`:
`{ range, ...(classFilter && { class: classFilter }), first: limit }` —
the `class` key is spread in only when `classFilter` is truthy. -/
def getTrendingSitesParams (range : String) (classFilter : Option String)
    (limit : Int) : List (String × Option String) :=
  [("range", some range)] ++
    (if jsTruthyS classFilter then [("class", some (classFilter.getD ""))] else []) ++
    [("first", some (toString limit))]

/-- The `get_trending_sites` handler body: a single `websimApiRequest` to
`/feed/trending`, followed by the rendering of its result. -/
def getTrendingSitesHandler (fmtD fmtR : String → String) (range : String)
    (classFilter : Option String) (limit : Int) (resp : FeedResponseV2) : HandlerRun :=
  { requests := [websimApiUrl WEBSIM_API_BASE_V2 "/feed/trending"
      (getTrendingSitesParams range classFilter limit)],
    output := getTrendingSitesRender fmtD fmtR range resp }

/- ## get_user_bookmarks handler, `src/server.js` second document -/

/-- The fields of a `WebSimBookmark` that `get_user_bookmarks` reads. -/
structure BookmarkV2 where
  id : String
  title : String
  visibility : String
  created_at : String
  slug : Option String
  owner_username : Option String
deriving DecidableEq

/-- One entry of the `/users/{id}/bookmarks` response data array. -/
structure BookmarkItemV2 where
  bookmark : BookmarkV2
  site : SiteV2
deriving DecidableEq

/-- `ApiResponse.meta` as read by the bookmark/follow tools. -/
structure PageMetaV2 where
  has_next_page : Bool
deriving DecidableEq

/-- The bookmarks page consumed by `get_user_bookmarks`. -/
structure BookmarksPageV2 where
  data : List BookmarkItemV2
  meta : PageMetaV2
deriving DecidableEq

/-- One `forEach` block of `get_user_bookmarks` (`src/server.js`
lines 1598-1612). -/
def bookmarkBlockV2 (fmtD fmtR : String → String) (index : Nat)
    (it : BookmarkItemV2) : String :=
  concatStrs [
    "## " ++ toString (index + 1) ++ ". " ++ it.bookmark.title ++ "\n\n",
    "**Bookmark ID:** " ++ it.bookmark.id ++ "\n",
    "**Site ID:** " ++ it.site.id ++ "\n",
    "**Visibility:** " ++ it.bookmark.visibility ++ "\n",
    "**Created:** " ++ fmtD it.bookmark.created_at ++ " (" ++ fmtR it.bookmark.created_at ++ ")\n",
    (if jsTruthyS it.bookmark.slug && jsTruthyS it.bookmark.owner_username then
      "**Bookmark URL:** https://websim.ai/" ++ it.bookmark.owner_username.getD "" ++
        "/" ++ it.bookmark.slug.getD "" ++ "\n"
     else ""),
    "**Live Site:** https://websim.ai/c/" ++ it.site.id ++ "\n\n",
    "---\n\n"]

/-- The markdown accumulated by `get_user_bookmarks` before the pagination
check (`src/server.js` lines 1593-1612). -/
def getUserBookmarksCore (fmtD fmtR : String → String) (usernameOrId : String)
    (resp : BookmarksPageV2) : String :=
  concatStrs [
    "# Bookmarks by " ++ usernameOrId ++ "\n\n",
    "Showing " ++ toString resp.data.length ++ " bookmarks\n\n",
    concatStrs ((enumFromIdx 0 resp.data).map (fun pr => bookmarkBlockV2 fmtD fmtR pr.1 pr.2))]

/-- Full rendering of `get_user_bookmarks` (`src/server.js`
lines 1593-1621): after the loop, `if (bookmarksData.meta.has_next_page)`
appends a hint suggesting a new `limit` of `limit + 20` — the tool takes no
`offset` parameter. -/
def getUserBookmarksRender (fmtD fmtR : String → String) (usernameOrId : String)
    (limit : Int) (resp : BookmarksPageV2) : String :=
  getUserBookmarksCore fmtD fmtR usernameOrId resp ++
    (if resp.meta.has_next_page then
      "*More bookmarks available. Use limit " ++ toString (limit + 20) ++ " to see more.*"
     else "")

/-- The `get_user_bookmarks` handler body: a single `websimApiRequest` to
`/users/{username_or_id}/bookmarks` with `params = { first: limit }`,
followed by the rendering of its result. -/
def getUserBookmarksHandler (fmtD fmtR : String → String) (usernameOrId : String)
    (limit : Int) (resp : BookmarksPageV2) : HandlerRun :=
  { requests := [websimApiUrl WEBSIM_API_BASE_V2 ("/users/" ++ usernameOrId ++ "/bookmarks")
      [("first", some (toString limit))]],
    output := getUserBookmarksRender fmtD fmtR usernameOrId limit resp }

/-- Bookmark fixture used to evaluate `get_user_bookmarks` at a page whose
upstream signals more results. -/
def bmFixtureBookmarkC5 : BookmarkV2 :=
  { id := "bm1"
    title := "First"
    visibility := "public"
    created_at := "t1"
    slug := some "first"
    owner_username := some "alice" }

def bmFixtureSiteC5 : SiteV2 :=
  { id := "s1"
    title := some "A"
    owner_username := some "alice"
    model := none
    state := "public"
    created_at := "t1"
    link_url := none }

def bmFixtureItemC5 : BookmarkItemV2 :=
  { bookmark := bmFixtureBookmarkC5, site := bmFixtureSiteC5 }

def bmFixtureC5 : BookmarksPageV2 :=
  { data := [bmFixtureItemC5], meta := { has_next_page := true } }

def pfeedTrueC5 : PFeed := { items := [], pagination := { hasMore := some true } }

def pfeedNoneC5 : PFeed := { items := [], pagination := { hasMore := none } }

def bmPageTrueC5 : BookmarksPageV2 := { data := [], meta := { has_next_page := true } }

def bmPageFalseC5 : BookmarksPageV2 := { data := [], meta := { has_next_page := false } }

/-- First fixture item for the trending-lookup scenario: views 121757,
likes 1132. -/
def trendingSite1C6 : SiteV2 :=
  { id := "abc123"
    title := some "Site One"
    owner_username := some "alice"
    model := some "gpt"
    state := "public"
    created_at := "t1"
    link_url := none }

def trendingItem1C6 : TrendingItemV2 :=
  { site := trendingSite1C6, views := 121757, likes := 1132, remixes := 3, comments := 4 }

/-- Second fixture item for the trending-lookup scenario. -/
def trendingSite2C6 : SiteV2 :=
  { id := "xyz789"
    title := some "Site Two"
    owner_username := some "bob"
    model := none
    state := "public"
    created_at := "t2"
    link_url := none }

def trendingItem2C6 : TrendingItemV2 :=
  { site := trendingSite2C6, views := 121757, likes := 1132, remixes := 5, comments := 6 }

def trendingFixtureC6 : FeedResponseV2 :=
  { data := [trendingItem1C6, trendingItem2C6], meta := { offset := 0, limit := 2 } }

theorem strContains_appendL (a b t : String) (h : strContains b t) :
    strContains (a ++ b) t := by
  obtain ⟨s, u, hs⟩ := h
  exact ⟨a.data ++ s, u, by simp [← hs]⟩

theorem strContains_appendR (a b t : String) (h : strContains a t) :
    strContains (a ++ b) t := by
  obtain ⟨s, u, hs⟩ := h
  exact ⟨s, u ++ b.data, by simp [← hs]⟩

theorem strContains_refl (a : String) : strContains a a :=
  ⟨[], [], by simp⟩

theorem strContains_trans (a b t : String) (h₁ : strContains a b)
    (h₂ : strContains b t) : strContains a t := by
  obtain ⟨s₁, u₁, hs₁⟩ := h₁
  obtain ⟨s₂, u₂, hs₂⟩ := h₂
  exact ⟨s₁ ++ s₂, u₂ ++ u₁, by rw [← hs₁, ← hs₂]; simp⟩

theorem strContains_concat_of_mem (l : List String) (s t : String)
    (hmem : s ∈ l) (h : strContains s t) : strContains (concatStrs l) t := by
  induction l with
  | nil => cases hmem
  | cons a rest ih =>
    rcases List.mem_cons.mp hmem with h1 | h2
    · exact strContains_appendR a (concatStrs rest) t (h1 ▸ h)
    · exact strContains_appendL a (concatStrs rest) t (ih h2)

theorem jsonEscapeList_append (l m : List Char) :
    jsonEscapeList (l ++ m) = jsonEscapeList l ++ jsonEscapeList m := by
  induction l with
  | nil => simp [jsonEscapeList]
  | cons c cs ih =>
    show jsonEscapeChar c ++ jsonEscapeList (cs ++ m) = _
    rw [ih]
    exact congrArg String.mk (by simp [String.append])

theorem jsonEscape_append (a b : String) :
    jsonEscape (a ++ b) = jsonEscape a ++ jsonEscape b :=
  jsonEscapeList_append a.data b.data

/- ## Helper lemmas -/

theorem strAppend_empty (s : String) : s ++ "" = s :=
  congrArg String.mk (List.append_nil s.data)



theorem appendQueryPairs_skip (pre post : List (String × Option String)) (k : String) :
    appendQueryPairs (pre ++ (k, none) :: post) = appendQueryPairs (pre ++ post) := by
  induction pre with
  | nil => simp [appendQueryPairs]
  | cons hd tl ih =>
    obtain ⟨k2, v2⟩ := hd
    cases v2 <;> simp [appendQueryPairs, ih]

theorem appendQueryPairs_eq_filterMap (params : List (String × Option String)) :
    appendQueryPairs params =
      params.filterMap (fun p => p.2.map (fun v => (p.1, v))) := by
  induction params with
  | nil => rfl
  | cons hd tl ih =>
    obtain ⟨k, v⟩ := hd
    cases v <;> simp [appendQueryPairs, ih, List.filterMap_cons]

theorem appendQueryPairs_length (params : List (String × Option String)) :
    (appendQueryPairs params).length =
      (params.filter (fun p => p.2.isSome)).length := by
  induction params with
  | nil => rfl
  | cons hd tl ih =>
    obtain ⟨k, v⟩ := hd
    cases v <;> simp [appendQueryPairs, ih, List.filter_cons]

/- ## Claim theorems -/

/-- Claim C4: for every request in which the upstream does not respond
before the configured deadline (default 30000 ms), the Request Client
(`WebSimAPIClient.makeRequest`) aborts the in-flight call and fails with
the timeout error, producing no partial output, and a single `fetch`
attempt is made with no retry. -/
theorem claim_C4 {α : Type} (timeout delay : Nat) (res : FetchResult α)
    (h : timeout ≤ delay) :
    makeRequestV1 timeout delay res =
      (1, Except.error ("Request timeout after " ++ toString timeout ++ "ms")) ∧
    (∀ v : α, (makeRequestV1 timeout delay res).2 ≠ Except.ok v) ∧
    DEFAULT_TIMEOUT = 30000 := by
  refine ⟨by simp [makeRequestV1, h], ?_, rfl⟩
  intro v
  simp [makeRequestV1, h]

/-- Witness for C4: a concrete call whose upstream would have answered
200/OK at 30001 ms against the default 30000 ms deadline times out. -/
theorem claim_C4_witness :
    makeRequestV1 DEFAULT_TIMEOUT 30001
        (FetchResult.success 200 "OK" (Except.ok (7 : Nat))) =
      (1, Except.error "Request timeout after 30000ms") :=
  (claim_C4 DEFAULT_TIMEOUT 30001
    (FetchResult.success 200 "OK" (Except.ok (7 : Nat))) (by decide)).1

/-- Claim C8: `websimApiRequest` builds the request URL by joining the base
address with the path and appending exactly one query-string pair per
present entry of the parameter mapping, in order; absent (`undefined` /
`null`) entries are skipped and contribute nothing. -/
theorem claim_C8 (base endpoint : String) (params : List (String × Option String)) :
    appendQueryPairs params =
      params.filterMap (fun p => p.2.map (fun v => (p.1, v))) ∧
    (appendQueryPairs params).length =
      (params.filter (fun p => p.2.isSome)).length ∧
    websimApiUrl base endpoint [] = base ++ endpoint ∧
    (∀ (pre post : List (String × Option String)) (k : String),
      websimApiUrl base endpoint (pre ++ (k, none) :: post) =
        websimApiUrl base endpoint (pre ++ post)) := by
  refine ⟨appendQueryPairs_eq_filterMap params, appendQueryPairs_length params, ?_, ?_⟩
  · show base ++ endpoint ++ "" = base ++ endpoint
    exact strAppend_empty _
  · intro pre post k
    unfold websimApiUrl
    rw [appendQueryPairs_skip]

/-- Claim C2 concerns the 404/429/5xx error messages of the two
`websimApiRequest` clients.  The `part_001` client surfaces the specific
messages as claimed.  The `src/server.js` second-document client does not:
its specific throws stand inside a `try` whose bare `catch` replaces every
one of them with the generic `WebSim API error: {status} {statusText}`,
so a 404 never yields "Resource not found" there.  This theorem evaluates
both clients at the failing statuses. -/
theorem claim_C2 :
    part001RequestError 404 "Not Found" = "Resource not found" ∧
    part001RequestError 429 "Too Many Requests" =
      "Rate limit exceeded. Please try again later." ∧
    part001RequestError 500 "Internal Server Error" =
      "WebSim service temporarily unavailable" ∧
    part001RequestError 503 "Service Unavailable" =
      "WebSim service temporarily unavailable" ∧
    serverV2RequestError 404 "Not Found" (some { message := some "no such site" }) =
      "WebSim API error: 404 Not Found" ∧
    serverV2RequestError 404 "Not Found" none = "WebSim API error: 404 Not Found" ∧
    serverV2RequestError 429 "Too Many Requests" (some { message := none }) =
      "WebSim API error: 429 Too Many Requests" ∧
    ¬ strContains
        (serverV2RequestError 404 "Not Found" (some { message := some "no such site" }))
        "Resource not found" := by
  decide

/-- Claim C9: the static tool registry of `src/server.js` contains no two
descriptors with the same name, and the `ListToolsRequestSchema` handler
returns exactly one entry per registered descriptor, whose name equals
the registration key of that descriptor — no duplicates, no orphans, no extra
names. -/
theorem claim_C9 :
    (websimTools.map ToolReg.name).Nodup ∧
    listTools websimTools = websimTools ∧
    (listTools websimTools).map ToolReg.name = websimTools.map ToolReg.name ∧
    (listTools websimTools).length = websimTools.length := by
  refine ⟨by decide, by decide, ?_, ?_⟩
  · rfl
  · rfl

/-- Claim C10: the `health_check` handler never returns an `isError`
envelope: whatever the outcome of the connectivity probe, the envelope is
ordinary and carries one text block; when the probe fails, that block
reports status "unhealthy" together with the underlying error message. -/
theorem claim_C10 (α : Type) (probe : Except String α) (ts msg : String) :
    (healthCheckHandler probe ts).isError = false ∧
    (healthCheckHandler probe ts).content.length = 1 ∧
    healthCheckHandler (Except.error msg : Except String α) ts =
      { content := [renderUnhealthyText msg ts], isError := false } ∧
    strContains (renderUnhealthyText msg ts) "\"status\": \"unhealthy\"" ∧
    strContains (renderUnhealthyText msg ts) (jsonEscape msg) := by
  refine ⟨?_, ?_, rfl, ?_, ?_⟩
  · cases probe <;> rfl
  · cases probe <;> rfl
  · apply strContains_appendR
    apply strContains_appendR
    apply strContains_appendR
    apply strContains_appendR
    decide
  · apply strContains_appendR
    apply strContains_appendR
    apply strContains_appendR
    apply strContains_appendL
    rw [jsonEscape_append]
    apply strContains_appendL
    exact strContains_refl _

/-- Claim C3: an invocation whose name matches no registry entry produces
the `Unknown tool: {name}` error envelope with `isError = true`, the
single text block names the unknown tool, and no handler runs, so zero
upstream requests are issued. -/
theorem claim_C3 (registry : List ToolImpl) (name : String)
    (args : List (String × String)) (ts : String)
    (h : ∀ t ∈ registry, t.name ≠ name) :
    dispatchToolCall registry name args ts =
      ({ content := [errorEnvelopeText ("Unknown tool: " ++ name) ts],
         isError := true }, 0) ∧
    (dispatchToolCall registry name args ts).1.isError = true ∧
    (dispatchToolCall registry name args ts).2 = 0 ∧
    strContains (errorEnvelopeText ("Unknown tool: " ++ name) ts)
      (jsonEscape ("Unknown tool: " ++ name)) := by
  have hfind : registry.find? (fun t => t.name == name) = none := by
    rw [List.find?_eq_none]
    intro t ht
    simpa using h t ht
  refine ⟨?_, ?_, ?_, ?_⟩
  · unfold dispatchToolCall
    rw [hfind]
  · unfold dispatchToolCall
    rw [hfind]
  · unfold dispatchToolCall
    rw [hfind]
  · unfold errorEnvelopeText
    apply strContains_appendR
    apply strContains_appendR
    apply strContains_appendR
    apply strContains_appendL
    exact strContains_refl _

/-- Witness for C3: dispatching a name absent from a concrete registry. -/
theorem claim_C3_witness :
    dispatchToolCall
        [{ name := "get_project_by_id", handler := fun _ => (1, Except.ok "x") }]
        "no_such_tool" [] "2024-01-01T00:00:00.000Z" =
      ({ content := [errorEnvelopeText "Unknown tool: no_such_tool"
          "2024-01-01T00:00:00.000Z"], isError := true }, 0) :=
  (claim_C3 [{ name := "get_project_by_id", handler := fun _ => (1, Except.ok "x") }]
    "no_such_tool" [] "2024-01-01T00:00:00.000Z" (by decide)).1

theorem parseTrending_not_ok (a : TrendingSitesArgs)
    (hv : (∃ l, a.limit = some l ∧ (l < 1 ∨ 100 < l)) ∨
      (∃ r, a.range = some r ∧ trendingRangeEnum.contains r = false)) :
    ∀ b, parseTrendingSitesArgs a ≠ Except.ok b := by
  intro b hb
  rcases hv with ⟨l, hl, hlv⟩ | ⟨r, hr, hre⟩
  · cases hR : a.range with
    | none =>
      simp [parseTrendingSitesArgs, hR, hl] at hb
      rcases hlv with h1 | h1
      · simp [h1] at hb
      · have h2 : ¬ l < 1 := by omega
        simp [h1, h2] at hb
    | some r =>
      by_cases hc : r ∈ trendingRangeEnum
      · simp [parseTrendingSitesArgs, hR, hc, hl] at hb
        rcases hlv with h1 | h1
        · simp [h1] at hb
        · have h2 : ¬ l < 1 := by omega
          simp [h1, h2] at hb
      · simp [parseTrendingSitesArgs, hR, hc, hl, Bind.bind, Except.bind] at hb
  · have hc : r ∉ trendingRangeEnum := by simpa using hre
    simp [parseTrendingSitesArgs, hr, hc, Bind.bind, Except.bind] at hb

theorem parseSearch_not_ok (a : SearchProjectsArgs)
    (hv : (∃ l, a.limit = some l ∧ (l < 1 ∨ 100 < l)) ∨
      (∃ s, a.sort = some s ∧ searchSortEnum.contains s = false)) :
    ∀ b, parseSearchProjectsArgs a ≠ Except.ok b := by
  intro b hb
  rcases hv with ⟨l, hl, hlv⟩ | ⟨s, hs, hse⟩
  · cases hS : a.sort with
    | none =>
      simp [parseSearchProjectsArgs, hS, hl] at hb
      rcases hlv with h1 | h1
      · simp [h1, Bind.bind, Except.bind] at hb
      · have h2 : ¬ l < 1 := by omega
        simp [h1, h2, Bind.bind, Except.bind] at hb
    | some s =>
      by_cases hc : s ∈ searchSortEnum
      · simp [parseSearchProjectsArgs, hS, hc, hl] at hb
        rcases hlv with h1 | h1
        · simp [h1, Bind.bind, Except.bind] at hb
        · have h2 : ¬ l < 1 := by omega
          simp [h1, h2, Bind.bind, Except.bind] at hb
      · simp [parseSearchProjectsArgs, hS, hc, hl, Bind.bind, Except.bind] at hb
  · have hc : s ∉ searchSortEnum := by simpa using hse
    simp [parseSearchProjectsArgs, hs, hc, Bind.bind, Except.bind] at hb

/-- Claim C1: a tool invocation whose arguments violate a declared
constraint — a result-count limit outside the closed range 1-100 (such as
0 or 101) or an enum value outside the declared set — fails validation
before the handler body runs, so the Request Client is never called: the
outcome is a `validationError` with zero upstream requests, for every
possible handler.  Shown for `get_trending_sites` (`src/server.js`) and
`search_projects` (`src/unnamed/part_001`). -/
theorem claim_C1 (h₁ : String × Option String × Int → Nat × Except String String)
    (a₁ : TrendingSitesArgs)
    (h₂ : String × String × Int × Int → Nat × Except String String)
    (a₂ : SearchProjectsArgs) :
    (((∃ l, a₁.limit = some l ∧ (l < 1 ∨ 100 < l)) ∨
      (∃ r, a₁.range = some r ∧ trendingRangeEnum.contains r = false)) →
      (mcpToolCall parseTrendingSitesArgs h₁ a₁).1 = 0 ∧
      ((mcpToolCall parseTrendingSitesArgs h₁ a₁).2).isValidationErr = true) ∧
    (((∃ l, a₂.limit = some l ∧ (l < 1 ∨ 100 < l)) ∨
      (∃ s, a₂.sort = some s ∧ searchSortEnum.contains s = false)) →
      (mcpToolCall parseSearchProjectsArgs h₂ a₂).1 = 0 ∧
      ((mcpToolCall parseSearchProjectsArgs h₂ a₂).2).isValidationErr = true) := by
  constructor
  · intro hv
    cases hp : parseTrendingSitesArgs a₁ with
    | ok b => exact absurd hp (parseTrending_not_ok a₁ hv b)
    | error m => simp [mcpToolCall, hp, CallResult.isValidationErr]
  · intro hv
    cases hp : parseSearchProjectsArgs a₂ with
    | ok b => exact absurd hp (parseSearch_not_ok a₂ hv b)
    | error m => simp [mcpToolCall, hp, CallResult.isValidationErr]

/-- Witness for C1: `limit = 0`, `limit = 101` and out-of-enum values at
concrete argument sets, each against a handler that would have issued one
request had it run. -/
theorem claim_C1_witness :
    ((mcpToolCall parseTrendingSitesArgs (fun _ => (1, Except.ok "ok"))
        { range := some "day", classFilter := none, limit := some 0 }).1 = 0 ∧
      ((mcpToolCall parseTrendingSitesArgs (fun _ => (1, Except.ok "ok"))
        { range := some "day", classFilter := none, limit := some 0 }).2).isValidationErr = true) ∧
    ((mcpToolCall parseTrendingSitesArgs (fun _ => (1, Except.ok "ok"))
        { range := some "year", classFilter := none, limit := some 101 }).1 = 0 ∧
      ((mcpToolCall parseTrendingSitesArgs (fun _ => (1, Except.ok "ok"))
        { range := some "year", classFilter := none, limit := some 101 }).2).isValidationErr = true) ∧
    ((mcpToolCall parseSearchProjectsArgs (fun _ => (1, Except.ok "ok"))
        { query := "cats", sort := some "alphabetical", limit := some 20,
          offset := some 0 }).1 = 0 ∧
      ((mcpToolCall parseSearchProjectsArgs (fun _ => (1, Except.ok "ok"))
        { query := "cats", sort := some "alphabetical", limit := some 20,
          offset := some 0 }).2).isValidationErr = true) :=
  ⟨(claim_C1 (fun _ => (1, Except.ok "ok"))
      { range := some "day", classFilter := none, limit := some 0 }
      (fun _ => (1, Except.ok "ok"))
      { query := "cats", sort := some "alphabetical", limit := some 20,
        offset := some 0 }).1 (Or.inl ⟨0, rfl, Or.inl (by decide)⟩),
   (claim_C1 (fun _ => (1, Except.ok "ok"))
      { range := some "year", classFilter := none, limit := some 101 }
      (fun _ => (1, Except.ok "ok"))
      { query := "cats", sort := some "alphabetical", limit := some 20,
        offset := some 0 }).1 (Or.inl ⟨101, rfl, Or.inr (by decide)⟩),
   (claim_C1 (fun _ => (1, Except.ok "ok"))
      { range := some "day", classFilter := none, limit := some 0 }
      (fun _ => (1, Except.ok "ok"))
      { query := "cats", sort := some "alphabetical", limit := some 20,
        offset := some 0 }).2 (Or.inr ⟨"alphabetical", rfl, by decide⟩)⟩

/-- Claim C7: the relative-time formatter returns "just now" under one
minute of elapsed time, "{n}m ago" under 60 minutes, "{n}h ago" under
24 hours, "{n}d ago" under 7 days, and exactly the absolute
`formatDateTime` value at 7 days or more. -/
theorem claim_C7 (fmt : Int → String) (t now : Int) :
    (now - t < 60000 → formatRelativeTime fmt t now = "just now") ∧
    (60000 ≤ now - t → now - t < 3600000 →
      formatRelativeTime fmt t now = toString (Int.fdiv (now - t) 60000) ++ "m ago") ∧
    (3600000 ≤ now - t → now - t < 86400000 →
      formatRelativeTime fmt t now = toString (Int.fdiv (now - t) 3600000) ++ "h ago") ∧
    (86400000 ≤ now - t → now - t < 604800000 →
      formatRelativeTime fmt t now = toString (Int.fdiv (now - t) 86400000) ++ "d ago") ∧
    (604800000 ≤ now - t → formatRelativeTime fmt t now = fmt t) := by
  have e1 : Int.fdiv (now - t) 60000 = (now - t) / 60000 :=
    Int.fdiv_eq_ediv _ (by decide)
  have e2 : Int.fdiv (now - t) 3600000 = (now - t) / 3600000 :=
    Int.fdiv_eq_ediv _ (by decide)
  have e3 : Int.fdiv (now - t) 86400000 = (now - t) / 86400000 :=
    Int.fdiv_eq_ediv _ (by decide)
  refine ⟨?_, ?_, ?_, ?_, ?_⟩
  · intro h
    rw [formatRelativeTime, e1,
      if_pos ((Int.ediv_lt_iff_lt_mul (by decide)).mpr (by omega))]
  · intro h1 h2
    rw [formatRelativeTime, e1,
      if_neg (by rw [not_lt]; exact (Int.le_ediv_iff_mul_le (by decide)).mpr (by omega)),
      if_pos ((Int.ediv_lt_iff_lt_mul (by decide)).mpr (by omega))]
  · intro h1 h2
    rw [formatRelativeTime, e1, e2,
      if_neg (by rw [not_lt]; exact (Int.le_ediv_iff_mul_le (by decide)).mpr (by omega)),
      if_neg (by rw [not_lt]; exact (Int.le_ediv_iff_mul_le (by decide)).mpr (by omega)),
      if_pos ((Int.ediv_lt_iff_lt_mul (by decide)).mpr (by omega))]
  · intro h1 h2
    rw [formatRelativeTime, e1, e2, e3,
      if_neg (by rw [not_lt]; exact (Int.le_ediv_iff_mul_le (by decide)).mpr (by omega)),
      if_neg (by rw [not_lt]; exact (Int.le_ediv_iff_mul_le (by decide)).mpr (by omega)),
      if_neg (by rw [not_lt]; exact (Int.le_ediv_iff_mul_le (by decide)).mpr (by omega)),
      if_pos ((Int.ediv_lt_iff_lt_mul (by decide)).mpr (by omega))]
  · intro h1
    rw [formatRelativeTime, e1, e2, e3,
      if_neg (by rw [not_lt]; exact (Int.le_ediv_iff_mul_le (by decide)).mpr (by omega)),
      if_neg (by rw [not_lt]; exact (Int.le_ediv_iff_mul_le (by decide)).mpr (by omega)),
      if_neg (by rw [not_lt]; exact (Int.le_ediv_iff_mul_le (by decide)).mpr (by omega)),
      if_neg (by rw [not_lt]; exact (Int.le_ediv_iff_mul_le (by decide)).mpr (by omega))]

/-- Witness for C7: concrete clock instants in each band. -/
theorem claim_C7_witness :
    formatRelativeTime (fun _ => "ABS") 0 30000 = "just now" ∧
    formatRelativeTime (fun _ => "ABS") 0 120000 = "2m ago" ∧
    formatRelativeTime (fun _ => "ABS") 0 7200000 = "2h ago" ∧
    formatRelativeTime (fun _ => "ABS") 0 172800000 = "2d ago" ∧
    formatRelativeTime (fun _ => "ABS") 0 604800000 = "ABS" :=
  ⟨(claim_C7 (fun _ => "ABS") 0 30000).1 (by decide),
   ((claim_C7 (fun _ => "ABS") 0 120000).2.1 (by decide) (by decide)).trans (by decide),
   ((claim_C7 (fun _ => "ABS") 0 7200000).2.2.1 (by decide) (by decide)).trans (by decide),
   ((claim_C7 (fun _ => "ABS") 0 172800000).2.2.2.1 (by decide) (by decide)).trans (by decide),
   (claim_C7 (fun _ => "ABS") 0 604800000).2.2.2.2 (by decide)⟩

set_option maxRecDepth 8192 in
/-- Counterexample for C5 as stated: `get_user_bookmarks` — cited by the
claim — takes no offset parameter, and when the upstream signals
`has_next_page` its hint suggests a new limit of `limit + 20`, not the
requested offset plus the requested limit.  At `limit = 50` the hint reads
"Use limit 70"; no suggested value `50` (= 0 + 50) and no offset hint
occur anywhere in the output. -/
theorem claim_C5_counterexample :
    strContains
      (getUserBookmarksHandler (fun s => s) (fun s => s) "alice" 50 bmFixtureC5).output
      "*More bookmarks available. Use limit 70 to see more.*" ∧
    ¬ strContains
      (getUserBookmarksHandler (fun s => s) (fun s => s) "alice" 50 bmFixtureC5).output
      "Use offset" ∧
    ¬ strContains
      (getUserBookmarksHandler (fun s => s) (fun s => s) "alice" 50 bmFixtureC5).output
      "50" := by
  decide

/-- Claim C5 (amended): each list handler issues exactly one upstream
request and never auto-paginates.  `list_trending_projects`
(`src/unnamed/part_001`), which takes both offset and limit, appends a
hint whose suggested next offset is the requested offset plus the
requested limit exactly when the upstream `hasMore` flag is truthy, and
appends nothing when the flag is false or absent.  `get_user_bookmarks`
(`src/server.js`), which takes only a limit, instead suggests a new limit
of `limit + 20` exactly when `has_next_page` is set. -/
theorem claim_C5 (fmtR : String → String) (limit offset : Int) (range feed : String)
    (resp : PFeed) (fmtD2 fmtR2 : String → String) (user : String) (limit2 : Int)
    (respB : BookmarksPageV2) :
    (listTrendingProjectsHandler fmtR limit offset range feed resp).requests.length = 1 ∧
    (jsTruthyB resp.pagination.hasMore = true →
      strContains (listTrendingProjectsHandler fmtR limit offset range feed resp).output
        ("*More projects available. Use offset " ++ toString (offset + limit) ++
          " to see more.*")) ∧
    (jsTruthyB resp.pagination.hasMore = false →
      (listTrendingProjectsHandler fmtR limit offset range feed resp).output =
        listTrendingCore fmtR range feed resp) ∧
    (getUserBookmarksHandler fmtD2 fmtR2 user limit2 respB).requests.length = 1 ∧
    (respB.meta.has_next_page = true →
      strContains (getUserBookmarksHandler fmtD2 fmtR2 user limit2 respB).output
        ("*More bookmarks available. Use limit " ++ toString (limit2 + 20) ++
          " to see more.*")) ∧
    (respB.meta.has_next_page = false →
      (getUserBookmarksHandler fmtD2 fmtR2 user limit2 respB).output =
        getUserBookmarksCore fmtD2 fmtR2 user respB) := by
  refine ⟨rfl, ?_, ?_, rfl, ?_, ?_⟩
  · intro h
    show strContains (listTrendingProjectsRender fmtR limit offset range feed resp) _
    unfold listTrendingProjectsRender
    rw [h, if_pos rfl]
    apply strContains_appendL
    exact strContains_refl _
  · intro h
    show listTrendingProjectsRender fmtR limit offset range feed resp = _
    unfold listTrendingProjectsRender
    rw [h]
    simp only [Bool.false_eq_true, if_false]
    exact strAppend_empty _
  · intro h
    show strContains (getUserBookmarksRender fmtD2 fmtR2 user limit2 respB) _
    unfold getUserBookmarksRender
    rw [h, if_pos rfl]
    apply strContains_appendL
    exact strContains_refl _
  · intro h
    show getUserBookmarksRender fmtD2 fmtR2 user limit2 respB = _
    unfold getUserBookmarksRender
    rw [h]
    simp only [Bool.false_eq_true, if_false]
    exact strAppend_empty _

/-- Witness for C5 (amended): concrete pages with the flag present, false
and absent. -/
theorem claim_C5_witness :
    strContains
      (listTrendingProjectsHandler (fun s => s) 20 40 "day" "trending" pfeedTrueC5).output
      "*More projects available. Use offset 60 to see more.*" ∧
    (listTrendingProjectsHandler (fun s => s) 20 40 "day" "trending" pfeedNoneC5).output =
      listTrendingCore (fun s => s) "day" "trending" pfeedNoneC5 ∧
    strContains
      (getUserBookmarksHandler (fun s => s) (fun s => s) "bob" 20 bmPageTrueC5).output
      "*More bookmarks available. Use limit 40 to see more.*" ∧
    (getUserBookmarksHandler (fun s => s) (fun s => s) "bob" 20 bmPageFalseC5).output =
      getUserBookmarksCore (fun s => s) (fun s => s) "bob" bmPageFalseC5 :=
  ⟨(claim_C5 (fun s => s) 20 40 "day" "trending" pfeedTrueC5
      (fun s => s) (fun s => s) "bob" 20 bmPageTrueC5).2.1 rfl,
   (claim_C5 (fun s => s) 20 40 "day" "trending" pfeedNoneC5
      (fun s => s) (fun s => s) "bob" 20 bmPageTrueC5).2.2.1 rfl,
   (claim_C5 (fun s => s) 20 40 "day" "trending" pfeedTrueC5
      (fun s => s) (fun s => s) "bob" 20 bmPageTrueC5).2.2.2.2.1 rfl,
   (claim_C5 (fun s => s) 20 40 "day" "trending" pfeedTrueC5
      (fun s => s) (fun s => s) "bob" 20 bmPageFalseC5).2.2.2.2.2 rfl⟩

/-- Claim C6: `get_trending_sites` invoked with range "day" and limit 2
against an upstream response of two items with views 121757 and likes 1132
renders both item blocks; each block carries a Views line showing
"121,757" and a Likes line showing "1,132" (the code writes the labels in
markdown bold, `**Views:** 121,757`), and a live-site URL built from the
site id of the item.  `formatNumber` produces the thousands separators. -/
theorem claim_C6 (fmtD fmtR : String → String) :
    (getTrendingSitesHandler fmtD fmtR "day" none 2 trendingFixtureC6).requests.length = 1 ∧
    strContains (getTrendingSitesHandler fmtD fmtR "day" none 2 trendingFixtureC6).output
      (siteBlockV2 fmtD fmtR 0 trendingItem1C6) ∧
    strContains (getTrendingSitesHandler fmtD fmtR "day" none 2 trendingFixtureC6).output
      (siteBlockV2 fmtD fmtR 1 trendingItem2C6) ∧
    strContains (siteBlockV2 fmtD fmtR 0 trendingItem1C6) "**Views:** 121,757\n" ∧
    strContains (siteBlockV2 fmtD fmtR 0 trendingItem1C6) "**Likes:** 1,132\n" ∧
    strContains (siteBlockV2 fmtD fmtR 1 trendingItem2C6) "**Views:** 121,757\n" ∧
    strContains (siteBlockV2 fmtD fmtR 1 trendingItem2C6) "**Likes:** 1,132\n" ∧
    strContains (siteBlockV2 fmtD fmtR 0 trendingItem1C6)
      "**Live Site:** https://websim.ai/c/abc123\n\n" ∧
    strContains (siteBlockV2 fmtD fmtR 1 trendingItem2C6)
      "**Live Site:** https://websim.ai/c/xyz789\n\n" ∧
    formatNumber 121757 = "121,757" ∧
    formatNumber 1132 = "1,132" := by
  refine ⟨rfl, ?_, ?_, ?_, ?_, ?_, ?_, ?_, ?_, by decide, by decide⟩
  · exact strContains_concat_of_mem _ _ _
      (List.Mem.tail _ (List.Mem.tail _ (List.Mem.head _)))
      (strContains_concat_of_mem _ _ _ (List.Mem.head _) (strContains_refl _))
  · exact strContains_concat_of_mem _ _ _
      (List.Mem.tail _ (List.Mem.tail _ (List.Mem.head _)))
      (strContains_concat_of_mem _ _ _ (List.Mem.tail _ (List.Mem.head _))
        (strContains_refl _))
  · exact strContains_concat_of_mem _
      ("**Views:** " ++ formatNumber 121757 ++ "\n") _
      (List.Mem.tail _ (List.Mem.tail _ (List.Mem.tail _ (List.Mem.tail _
        (List.Mem.tail _ (List.Mem.head _)))))) (by decide)
  · exact strContains_concat_of_mem _
      ("**Likes:** " ++ formatNumber 1132 ++ "\n") _
      (List.Mem.tail _ (List.Mem.tail _ (List.Mem.tail _ (List.Mem.tail _
        (List.Mem.tail _ (List.Mem.tail _ (List.Mem.head _))))))) (by decide)
  · exact strContains_concat_of_mem _
      ("**Views:** " ++ formatNumber 121757 ++ "\n") _
      (List.Mem.tail _ (List.Mem.tail _ (List.Mem.tail _ (List.Mem.tail _
        (List.Mem.tail _ (List.Mem.head _)))))) (by decide)
  · exact strContains_concat_of_mem _
      ("**Likes:** " ++ formatNumber 1132 ++ "\n") _
      (List.Mem.tail _ (List.Mem.tail _ (List.Mem.tail _ (List.Mem.tail _
        (List.Mem.tail _ (List.Mem.tail _ (List.Mem.head _))))))) (by decide)
  · exact strContains_concat_of_mem _
      ("**Live Site:** https://websim.ai/c/" ++ trendingItem1C6.site.id ++ "\n\n") _
      (List.Mem.tail _ (List.Mem.tail _ (List.Mem.tail _ (List.Mem.tail _
        (List.Mem.tail _ (List.Mem.tail _ (List.Mem.tail _ (List.Mem.tail _
          (List.Mem.tail _ (List.Mem.tail _ (List.Mem.tail _
            (List.Mem.head _)))))))))))) (by decide)
  · exact strContains_concat_of_mem _
      ("**Live Site:** https://websim.ai/c/" ++ trendingItem2C6.site.id ++ "\n\n") _
      (List.Mem.tail _ (List.Mem.tail _ (List.Mem.tail _ (List.Mem.tail _
        (List.Mem.tail _ (List.Mem.tail _ (List.Mem.tail _ (List.Mem.tail _
          (List.Mem.tail _ (List.Mem.tail _ (List.Mem.tail _
            (List.Mem.head _)))))))))))) (by decide)

/-- Witness for C6: the Views line of the first fixture block at concrete
formatting functions. -/
theorem claim_C6_witness :
    formatNumber 121757 = "121,757" ∧
    strContains (siteBlockV2 (fun s => s) (fun s => s) 0 trendingItem1C6)
      "**Views:** 121,757\n" :=
  ⟨(claim_C6 (fun s => s) (fun s => s)).2.2.2.2.2.2.2.2.2.1,
   (claim_C6 (fun s => s) (fun s => s)).2.2.2.1⟩

/-- Witness for C8: a concrete parameter mapping with one absent entry. -/
theorem claim_C8_witness :
    appendQueryPairs [("limit", some "20"), ("q", none), ("offset", some "0")] =
      [("limit", "20"), ("offset", "0")] ∧
    websimApiUrl "https://api.websim.com" "/api/v1/feed/trending"
        [("limit", some "20"), ("q", none), ("offset", some "0")] =
      websimApiUrl "https://api.websim.com" "/api/v1/feed/trending"
        [("limit", some "20"), ("offset", some "0")] :=
  ⟨(claim_C8 "https://api.websim.com" "/api/v1/feed/trending"
      [("limit", some "20"), ("q", none), ("offset", some "0")]).1.trans (by decide),
   (claim_C8 "https://api.websim.com" "/api/v1/feed/trending"
      [("limit", some "20"), ("q", none), ("offset", some "0")]).2.2.2
      [("limit", some "20")] [("offset", some "0")] "q"⟩

/-- Witness for C10: a failing probe at concrete inputs. -/
theorem claim_C10_witness :
    (healthCheckHandler (Except.error "boom" : Except String Unit) "2024").isError = false ∧
    strContains (renderUnhealthyText "boom" "2024") "\"status\": \"unhealthy\"" :=
  ⟨(claim_C10 Unit (Except.error "boom") "2024" "boom").1,
   (claim_C10 Unit (Except.error "boom") "2024" "boom").2.2.2.1⟩
